import Mathlib

/-!
Verification development for `google_maps_list_scraper.py`.

This file gives a shallow embedding of the pure/algorithmic core of the
scraper and proves properties about it.  Python strings are `String`
(`None`-able strings are `Option String`), Python lists are `List`,
Python dicts are association lists, and DOM queries performed through
BeautifulSoup/Selenium are modelled by records that carry the *results*
of the fixed queries the source performs (the found element's stripped
text, an anchor's `href`, the texts of the `W4Efsd` detail divs, ...).
Character classes follow the ASCII behaviour of the Python predicates
(`str.isdigit`, `\s`, `str.lower`), which is exact on the inputs the
scraper handles.
-/

set_option autoImplicit false

/-- Python `str.strip()` on a string: drop leading and trailing whitespace. -/
def pyStrip (s : String) : String :=
  String.mk (((s.toList.dropWhile Char.isWhitespace).reverse.dropWhile
    Char.isWhitespace).reverse)

/-- Python `a or b` for strings: `a` if non-empty (truthy), else `b`. -/
def pyOr (a b : String) : String :=
  if a = "" then b else a

/-- Python `needle in haystack` substring test, on character lists. -/
def containsSub (needle : List Char) : List Char → Bool
  | [] => needle.isEmpty
  | c :: rest => needle.isPrefixOf (c :: rest) || containsSub needle rest

/-- Python truthiness of an `Optional[str]`: `None` and `""` are falsy. -/
def pyTruthy : Option String → Bool
  | none => false
  | some s => s != ""

/-- Python `str.lower()` (ASCII behaviour). -/
def lowerStr (s : String) : String :=
  String.mk (s.toList.map Char.toLower)

/-- The characters matched by Python's regex class `\s` (ASCII part). -/
def isPySpace (c : Char) : Bool :=
  c = ' ' || c = '\t' || c = '\n' || c = '\r' || c = '\x0b' || c = '\x0c'

/-!
## Scroll loop (`scroll_to_load_all`, lines 105-127)

The browser interaction is abstracted to the sequence of
`scrollHeight` readings the loop makes: `read 0` is the initial reading
taken before the loop, `read k` the one taken in the `k`-th loop pass.
The embedding returns the number of scroll iterations performed when
the loop exits (the source prints `scroll_count + 1` on the
reached-end break, and `scroll_count` equals `max_scrolls` when the cap
is hit), which is the observable the spec calls
`iterations_performed`.
-/

/-- One source loop pass: scroll, wait, re-read the height, compare with
`last_height`, break on an unchanged reading.  `fuel` is
`max_scrolls - scroll_count`, so `fuel = 0` is exactly the loop
condition `scroll_count < max_scrolls` failing. -/
def scrollAux (read : Nat → Int) (lastHeight : Int) (scrollCount : Nat) :
    Nat → Nat
  | 0 => scrollCount
  | fuel + 1 =>
    let newHeight := read (scrollCount + 1)
    if newHeight = lastHeight then scrollCount + 1
    else scrollAux read newHeight (scrollCount + 1) fuel

/-- Embedding of the loop of `scroll_to_load_all`: `last_height` starts at
the initial reading, `scroll_count` at `0`. -/
def scroll_to_load_all (read : Nat → Int) (maxScrolls : Nat) : Nat :=
  scrollAux read (read 0) 0 maxScrolls

/-- The metric sequence `[10, 20, 30, 30, 30, 30]` from the spec's scroll
stabilizer test, as a reading function (later readings stay at 30). -/
def exHeights : Nat → Int :=
  fun k => [(10 : Int), 20, 30, 30, 30, 30].getD k 30

/-!
## Coordinate extraction (`extract_lat_lng`, lines 130-153)

The two `re.search` calls are embedded as explicit scanners over the
character list.  Both regexes,

  `@(-?\d+\.?\d*),(-?\d+\.?\d*)`          (first branch)
  `/place/[^/]+/@(-?\d+\.?\d*),(-?\d+\.?\d*)`  (second branch)

are backtracking-free in the relevant sense: each greedy sub-match
(`\d+`, `\.?`, `\d*`, `[^/]+`) is followed by a character that its own
class excludes, so Python's leftmost search with backtracking computes
exactly what the greedy scanners below compute.
-/

/-- Match `-?\d+\.?\d*` greedily at the head of `cs`, returning the
matched characters and the remainder. -/
def parseNum (cs : List Char) : Option (List Char × List Char) :=
  let p := match cs with
    | '-' :: r => (['-'], r)
    | _ => (([] : List Char), cs)
  let ds := p.2.takeWhile Char.isDigit
  let r1 := p.2.dropWhile Char.isDigit
  if ds.isEmpty then none
  else
    match r1 with
    | '.' :: t =>
      some (p.1 ++ ds ++ '.' :: t.takeWhile Char.isDigit,
        t.dropWhile Char.isDigit)
    | _ => some (p.1 ++ ds, r1)

/-- Match `@(-?\d+\.?\d*),(-?\d+\.?\d*)` at the head of `cs`, returning
the two captured groups. -/
def matchCoordsAt (cs : List Char) : Option (String × String) :=
  match cs with
  | '@' :: rest =>
    match parseNum rest with
    | none => none
    | some (n1, r1) =>
      match r1 with
      | ',' :: r2 =>
        match parseNum r2 with
        | none => none
        | some (n2, _) => some (String.mk n1, String.mk n2)
      | _ => none
  | _ => none

/-- Leftmost search for the `@lat,lng` pattern (first `re.search`). -/
def searchCoords : List Char → Option (String × String)
  | [] => none
  | c :: rest =>
    match matchCoordsAt (c :: rest) with
    | some r => some r
    | none => searchCoords rest

/-- Match `/place/[^/]+/@(-?\d+\.?\d*),(-?\d+\.?\d*)` at the head of
`cs`.  `[^/]+` is the maximal non-empty run of non-slash characters. -/
def matchPlaceAt (cs : List Char) : Option (String × String) :=
  match cs with
  | '/' :: 'p' :: 'l' :: 'a' :: 'c' :: 'e' :: '/' :: rest =>
    if (rest.takeWhile (fun c => !(c = '/'))).isEmpty then none
    else
      match rest.dropWhile (fun c => !(c = '/')) with
      | '/' :: r2 => matchCoordsAt r2
      | _ => none
  | _ => none

/-- Leftmost search for the `/place/.../@lat,lng` pattern (second
`re.search`). -/
def searchPlace : List Char → Option (String × String)
  | [] => none
  | c :: rest =>
    match matchPlaceAt (c :: rest) with
    | some r => some r
    | none => searchPlace rest

/-- Embedding of `extract_lat_lng`: guard on a falsy url, then the two
regex branches in order, else `(None, None)`. -/
def extract_lat_lng (url : String) : Option String × Option String :=
  if url = "" then (none, none)
  else
    match searchCoords url.toList with
    | some (a, b) => (some a, some b)
    | none =>
      match searchPlace url.toList with
      | some (a, b) => (some a, some b)
      | none => (none, none)

/-- The single-pattern variant of `extract_lat_lng` named by claim C10:
only the `None`-input guard and the first regex branch. -/
def extract_lat_lng_first (url : String) : Option String × Option String :=
  if url = "" then (none, none)
  else
    match searchCoords url.toList with
    | some (a, b) => (some a, some b)
    | none => (none, none)

/-!
## Record model (`parse_listings`, lines 214-336)

`PlaceData` is the dictionary built at lines 239-249: exactly the keys
`place, address, category, rating, url, note, lat, lng, city`, all
`Optional[str]` except the caller-supplied `city` tag.  Note that the
source keeps `rating`, `lat` and `lng` as raw matched text and has no
review-count or price field.
-/

structure PlaceData where
  place : Option String
  address : Option String
  category : Option String
  rating : Option String
  url : Option String
  note : Option String
  lat : Option String
  lng : Option String
  city : Option String
deriving DecidableEq

/-- A `textarea[aria-label="Note"]` element found inside a container:
`value` is `note_elem.get('value', '')` (so the missing-attribute
default `''` is already applied) and `text` is `note_elem.text`. -/
structure NoteElem where
  value : String
  text : String
deriving DecidableEq

/-- One place container (`div.Nv2PK`), modelled by the results of the
fixed BeautifulSoup queries `parse_listings` performs on it:
stripped text of the first `div.fontHeadlineSmall` / `div.qBF1Pd`
(`none` = element absent, `some ""` = present but empty), the `href` of
the first anchor, the stripped texts of the `div.W4Efsd` detail divs in
document order, the stripped texts of the `span.W4Efsd` spans, and the
note textarea if present. -/
structure Container where
  nameHeadline : Option String
  nameQ : Option String
  href : Option String
  detailDivs : List String
  categorySpans : List String
  noteElem : Option NoteElem
deriving DecidableEq

/-- A container as the per-item `try` block sees it.  `raising msg`
models an item whose processing raises at some point of the `try` body
(lines 251-331); since `places.append` is the body's final statement, a
raise anywhere in the body contributes nothing to the output, which is
what this constructor captures. -/
inductive ContainerH where
  | ok (c : Container)
  | raising (msg : String)
deriving DecidableEq

/-- The fresh `place_data` dictionary of lines 239-249. -/
def initPlace (city : Option String) : PlaceData :=
  { place := none, address := none, category := none, rating := none,
    url := none, note := none, lat := none, lng := none, city := city }

/-- Name resolution of lines 253-255: `div.fontHeadlineSmall` first,
falling back to `div.qBF1Pd`. -/
def containerName (c : Container) : Option String :=
  match c.nameHeadline with
  | some t => some t
  | none => c.nameQ

/-- Lines 253-257: store the found name element's text (if any). -/
def setName (c : Container) (pd : PlaceData) : PlaceData :=
  match containerName c with
  | some t => { pd with place := some t }
  | none => pd

/-- Lines 260-266: store the anchor's `href` and the coordinate pair
`extract_lat_lng` returns for it. -/
def setUrl (c : Container) (pd : PlaceData) : PlaceData :=
  match c.href with
  | some u =>
    { pd with
      url := some u,
      lat := (extract_lat_lng u).1,
      lng := (extract_lat_lng u).2 }
  | none => pd

/-- The regex `^(\d+\.?\d*)\s*\(` of line 279, anchored at the start of
the fragment; returns capture group 1 (the raw numeral text). -/
def ratingMatch (text : String) : Option String :=
  let cs := text.toList
  let ds := cs.takeWhile Char.isDigit
  let r1 := cs.dropWhile Char.isDigit
  if ds.isEmpty then none
  else
    let pr := match r1 with
      | '.' :: t =>
        (ds ++ '.' :: t.takeWhile Char.isDigit, t.dropWhile Char.isDigit)
      | _ => (ds, r1)
    match pr.2.dropWhile isPySpace with
    | '(' :: _ => some (String.mk pr.1)
    | _ => none

/-- The curated venue-type keyword list of lines 288-290. -/
def categoryKeywords : List String :=
  ["restaurant", "cafe", "bar", "shop", "store", "hotel",
   "museum", "park", "food", "cuisine", "grill", "bakery",
   "ice cream", "burger", "pizza", "sushi", "steak"]

/-- Line 287: `any(keyword in text.lower() for keyword in ...)`. -/
def hasCategoryKeyword (text : String) : Bool :=
  categoryKeywords.any (fun k => containsSub k.toList (lowerStr text).toList)

/-- The multi-part separator `' · '` of line 299 (space, middle dot,
space). -/
def dotSep : List Char := [' ', '·', ' ']

/-- Python `text.split(' · ')`: split at each non-overlapping,
left-to-right occurrence of the separator. -/
def splitDot : List Char → List (List Char)
  | [] => [[]]
  | ' ' :: '·' :: ' ' :: rest => [] :: splitDot rest
  | c :: rest =>
    match splitDot rest with
    | [] => [[c]]
    | p :: ps => (c :: p) :: ps

/-- The sub-part filter of line 303: contains a digit and is longer
than 5 characters. -/
def addrPartOk (p : String) : Bool :=
  p.toList.any Char.isDigit && decide (5 < p.length)

/-- Lines 298-306: if the fragment contains `' · '`, take the first
sub-part that passes `addrPartOk`, else keep the fragment whole. -/
def pickAddress (text : String) : String :=
  if containsSub dotSep text.toList then
    match ((splitDot text.toList).map String.mk).find? addrPartOk with
    | some p => p
    | none => text
  else text

/-- One pass of the detail-div loop body (lines 271-306) over the
running `place_data`: skip short fragments, then the rating pattern,
then the keyword-gated category heuristic (falling through to the
address check when the keyword test fails), then the address
heuristic. -/
def processDetail (pd : PlaceData) (text : String) : PlaceData :=
  if text = "" ∨ text.length < 2 then pd
  else
    match ratingMatch text with
    | some r => { pd with rating := some r }
    | none =>
      if pd.category = none ∧ text.length < 30 ∧
          text.toList.any Char.isDigit = false ∧
          hasCategoryKeyword text = true then
        { pd with category := some text }
      else if pd.address = none ∧
          (text.toList.any Char.isDigit = true ∨ 20 < text.length) then
        { pd with address := some (pickAddress text) }
      else pd

/-- Lines 309-315: if no category was found, take the first
`span.W4Efsd` text that is non-empty, shorter than 25 characters and
digit-free. -/
def spanFallback (pd : PlaceData) (spans : List String) : PlaceData :=
  if pd.category = none then
    match spans.find? (fun t =>
        (t != "") && decide (t.length < 25) &&
        !(t.toList.any Char.isDigit)) with
    | some t => { pd with category := some t }
    | none => pd
  else pd

/-- Lines 317-322: read the note textarea, preferring the `value`
attribute over the element text, and keep the stripped text if
non-empty. -/
def setNote (c : Container) (pd : PlaceData) : PlaceData :=
  match c.noteElem with
  | some ne =>
    let nt := pyStrip (pyOr ne.value ne.text)
    if nt ≠ "" then { pd with note := some nt } else pd
  | none => pd

/-- Lines 324-326: override the note from the notes dictionary when the
(truthy) place name is one of its keys. -/
def applyNotesDict (notes : List (String × String)) (pd : PlaceData) :
    PlaceData :=
  match pd.place with
  | some p =>
    if p ≠ "" then
      match notes.lookup p with
      | some n => { pd with note := some n }
      | none => pd
    else pd
  | none => pd

/-- The whole per-container `try` body of lines 251-326, as run on a
container whose accesses do not raise. -/
def processContainerBody (c : Container) (notes : List (String × String))
    (city : Option String) : PlaceData :=
  applyNotesDict notes
    (setNote c
      (spanFallback
        (c.detailDivs.foldl processDetail (setUrl c (setName c (initPlace city))))
        c.categorySpans))

/-- Embedding of the loop of `parse_listings` (lines 238-336) over the
found containers: a raising item is caught at the item boundary and
skipped (lines 332-334), a processed item is appended iff its extracted
`place` name is truthy (lines 328-330). -/
def parse_listings : List ContainerH → List (String × String) →
    Option String → List PlaceData
  | [], _, _ => []
  | ContainerH.raising _ :: rest, notes, city => parse_listings rest notes city
  | ContainerH.ok c :: rest, notes, city =>
    let pd := processContainerBody c notes city
    if pyTruthy pd.place then pd :: parse_listings rest notes city
    else parse_listings rest notes city

/-- The name a container contributes to the output of `parse_listings`:
`none` when the item raises or its extracted name is falsy. -/
def emittedName : ContainerH → Option String
  | ContainerH.raising _ => none
  | ContainerH.ok c =>
    match containerName c with
    | some t => if t ≠ "" then some t else none
    | none => none

/-!
## Run orchestration (`scrape_google_maps_list`, lines 339-450)

The external world of one run is a `Page`: whether `driver.get`
succeeds, whether the readiness wait (presence of a place-name element,
lines 388-393) is ever satisfied, the scroll-height readings, the notes
table built by `extract_notes_from_page`, and the containers found in
the final page source.  `browserClosed` models the `finally` block
(lines 445-448) and `warnings` collects the warning prints, giving the
collaborator-level observables the spec names.
-/

structure Page where
  navOk : Bool
  readinessOk : Bool
  heights : Nat → Int
  notes : List (String × String)
  containers : List ContainerH

/-- The `result` dictionary of lines 364-372 (without the wall-clock
`execution_time`, which has no pure meaning), plus the `browserClosed`
and `warnings` observables. -/
structure ScrapeResult where
  success : Bool
  message : String
  data : List PlaceData
  count : Nat
  url : String
  city : Option String
  browserClosed : Bool
  warnings : List String

/-- Embedding of `scrape_google_maps_list`: on a navigation failure the
`except` path leaves the initial `success = false` result with an error
message; otherwise a failed readiness wait is caught (lines 388-393),
only a warning is recorded, and the run proceeds to scroll, collect
notes and parse.  The `finally` block closes the browser on both
paths. -/
def scrape_google_maps_list (page : Page) (url : String)
    (city : Option String) (maxScrolls : Nat) : ScrapeResult :=
  if page.navOk = false then
    { success := false, message := "Error: navigation failed", data := [],
      count := 0, url := url, city := city, browserClosed := true,
      warnings := [] }
  else
    let ws := if page.readinessOk then ([] : List String)
      else ["Warning: Timeout waiting for place elements. Proceeding anyway..."]
    let _ := scroll_to_load_all page.heights maxScrolls
    let places := parse_listings page.containers page.notes city
    { success := true,
      message := "Successfully scraped " ++ toString places.length ++ " places",
      data := places, count := places.length, url := url, city := city,
      browserClosed := true, warnings := ws }

/-!
## Concrete exemplar inputs used by counterexamples and witnesses
-/

/-- A container with only a name; used to exhibit duplicate handling. -/
def cDup : Container :=
  { nameHeadline := some "Cafe One", nameQ := none, href := none,
    detailDivs := [], categorySpans := [], noteElem := none }

/-- A container whose only detail fragment is the rating-shaped text
`"4.5(123)"`. -/
def cRate : Container :=
  { nameHeadline := some "P", nameQ := none, href := none,
    detailDivs := ["4.5(123)"], categorySpans := [], noteElem := none }

/-- A container whose only detail fragment is the price-shaped text
`"$$"`. -/
def cPrice : Container :=
  { nameHeadline := some "P2", nameQ := none, href := none,
    detailDivs := ["$$"], categorySpans := [], noteElem := none }

/-- A container with a coordinate-bearing anchor url. -/
def cGeo : Container :=
  { nameHeadline := some "Geo Place", nameQ := none,
    href := some "https://maps.example/@1.23,4.56,17z",
    detailDivs := [], categorySpans := [], noteElem := none }

/-- A page whose readiness wait is never satisfied and on which no
containers are found. -/
def pageNoReadiness : Page :=
  { navOk := true, readinessOk := false, heights := fun _ => 0,
    notes := [], containers := [] }

/-!
## Helper lemmas
-/

theorem processDetail_place_eq (pd : PlaceData) (t : String) :
    (processDetail pd t).place = pd.place := by
  unfold processDetail
  repeat' split
  all_goals rfl

theorem processDetail_lat_eq (pd : PlaceData) (t : String) :
    (processDetail pd t).lat = pd.lat := by
  unfold processDetail
  repeat' split
  all_goals rfl

theorem processDetail_lng_eq (pd : PlaceData) (t : String) :
    (processDetail pd t).lng = pd.lng := by
  unfold processDetail
  repeat' split
  all_goals rfl

theorem foldDetail_place_eq (l : List String) (pd : PlaceData) :
    (l.foldl processDetail pd).place = pd.place := by
  induction l generalizing pd with
  | nil => rfl
  | cons t l ih => rw [List.foldl_cons, ih, processDetail_place_eq]

theorem foldDetail_lat_eq (l : List String) (pd : PlaceData) :
    (l.foldl processDetail pd).lat = pd.lat := by
  induction l generalizing pd with
  | nil => rfl
  | cons t l ih => rw [List.foldl_cons, ih, processDetail_lat_eq]

theorem foldDetail_lng_eq (l : List String) (pd : PlaceData) :
    (l.foldl processDetail pd).lng = pd.lng := by
  induction l generalizing pd with
  | nil => rfl
  | cons t l ih => rw [List.foldl_cons, ih, processDetail_lng_eq]

theorem spanFallback_place_eq (pd : PlaceData) (spans : List String) :
    (spanFallback pd spans).place = pd.place := by
  unfold spanFallback
  repeat' split
  all_goals rfl

theorem spanFallback_lat_eq (pd : PlaceData) (spans : List String) :
    (spanFallback pd spans).lat = pd.lat := by
  unfold spanFallback
  repeat' split
  all_goals rfl

theorem spanFallback_lng_eq (pd : PlaceData) (spans : List String) :
    (spanFallback pd spans).lng = pd.lng := by
  unfold spanFallback
  repeat' split
  all_goals rfl

theorem setNote_place_eq (c : Container) (pd : PlaceData) :
    (setNote c pd).place = pd.place := by
  simp only [setNote]
  repeat' split
  all_goals rfl

theorem setNote_lat_eq (c : Container) (pd : PlaceData) :
    (setNote c pd).lat = pd.lat := by
  simp only [setNote]
  repeat' split
  all_goals rfl

theorem setNote_lng_eq (c : Container) (pd : PlaceData) :
    (setNote c pd).lng = pd.lng := by
  simp only [setNote]
  repeat' split
  all_goals rfl

theorem applyNotesDict_place_eq (notes : List (String × String)) (pd : PlaceData) :
    (applyNotesDict notes pd).place = pd.place := by
  unfold applyNotesDict
  repeat' split
  all_goals rfl

theorem applyNotesDict_lat_eq (notes : List (String × String)) (pd : PlaceData) :
    (applyNotesDict notes pd).lat = pd.lat := by
  unfold applyNotesDict
  repeat' split
  all_goals rfl

theorem applyNotesDict_lng_eq (notes : List (String × String)) (pd : PlaceData) :
    (applyNotesDict notes pd).lng = pd.lng := by
  unfold applyNotesDict
  repeat' split
  all_goals rfl

theorem setUrl_place_eq (c : Container) (pd : PlaceData) :
    (setUrl c pd).place = pd.place := by
  unfold setUrl
  repeat' split
  all_goals rfl

theorem setName_init_place (c : Container) (city : Option String) :
    (setName c (initPlace city)).place = containerName c := by
  unfold setName initPlace
  cases h : containerName c <;> simp

theorem processContainerBody_place (c : Container) (notes : List (String × String))
    (city : Option String) :
    (processContainerBody c notes city).place = containerName c := by
  unfold processContainerBody
  rw [applyNotesDict_place_eq, setNote_place_eq, spanFallback_place_eq,
    foldDetail_place_eq, setUrl_place_eq, setName_init_place]

theorem extract_lat_lng_isSome_eq (u : String) :
    (extract_lat_lng u).1.isSome = (extract_lat_lng u).2.isSome := by
  unfold extract_lat_lng
  repeat' split
  all_goals rfl

theorem setName_lat_eq (c : Container) (pd : PlaceData) :
    (setName c pd).lat = pd.lat := by
  unfold setName
  repeat' split
  all_goals rfl

theorem setName_lng_eq (c : Container) (pd : PlaceData) :
    (setName c pd).lng = pd.lng := by
  unfold setName
  repeat' split
  all_goals rfl

theorem processContainerBody_latlng (c : Container) (notes : List (String × String))
    (city : Option String) :
    (processContainerBody c notes city).lat.isSome =
      (processContainerBody c notes city).lng.isSome := by
  unfold processContainerBody
  rw [applyNotesDict_lat_eq, applyNotesDict_lng_eq, setNote_lat_eq, setNote_lng_eq,
    spanFallback_lat_eq, spanFallback_lng_eq, foldDetail_lat_eq, foldDetail_lng_eq]
  unfold setUrl
  cases h : c.href with
  | none => rw [setName_lat_eq, setName_lng_eq]; rfl
  | some u => exact extract_lat_lng_isSome_eq u

theorem pyTruthy_spec (o : Option String) (h : pyTruthy o = true) :
    o ≠ none ∧ o ≠ some "" := by
  cases o with
  | none => simp [pyTruthy] at h
  | some s =>
    simp only [pyTruthy, bne_iff_ne, ne_eq] at h
    refine ⟨by simp, by simp [h]⟩

theorem matchPlaceAt_gives_coords (cs : List Char) (r : String × String)
    (h : matchPlaceAt cs = some r) :
    ∃ cs', cs' <:+ cs ∧ matchCoordsAt cs' = some r := by
  unfold matchPlaceAt at h
  split at h
  case h_2 => exact absurd h (by simp)
  case h_1 rest =>
    split at h
    case isTrue => exact absurd h (by simp)
    case isFalse hseg =>
      split at h
      case h_2 => exact absurd h (by simp)
      case h_1 r2 heq =>
        refine ⟨r2, ?_, h⟩
        have hsplit : rest.takeWhile (fun c => !(c = '/')) ++
            rest.dropWhile (fun c => !(c = '/')) = rest :=
          List.takeWhile_append_dropWhile _ _
        refine ⟨'/' :: 'p' :: 'l' :: 'a' :: 'c' :: 'e' :: '/' ::
          (rest.takeWhile (fun c => !(c = '/')) ++ ['/']), ?_⟩
        simp only [List.cons_append, List.append_assoc, List.singleton_append,
          List.nil_append]
        rw [heq] at hsplit
        rw [hsplit]

theorem searchCoords_ne_none_of_suffix (cs cs' : List Char) (r : String × String)
    (hs : cs' <:+ cs) (h : matchCoordsAt cs' = some r) :
    searchCoords cs ≠ none := by
  induction cs with
  | nil =>
    rw [List.suffix_nil.mp hs] at h
    exact absurd h (by simp [matchCoordsAt])
  | cons c rest ih =>
    rw [searchCoords]
    cases hm : matchCoordsAt (c :: rest) with
    | some r2 => simp
    | none =>
      simp only []
      rcases List.suffix_cons_iff.mp hs with hcs | hcs
      · rw [hcs] at h
        rw [h] at hm
        exact absurd hm (by simp)
      · exact ih hcs

theorem searchPlace_gives_match (cs : List Char) (r : String × String)
    (h : searchPlace cs = some r) :
    ∃ cs', cs' <:+ cs ∧ matchPlaceAt cs' = some r := by
  induction cs with
  | nil => exact absurd h (by simp [searchPlace])
  | cons c rest ih =>
    rw [searchPlace] at h
    cases hm : matchPlaceAt (c :: rest) with
    | some r2 =>
      rw [hm] at h
      simp only [Option.some.injEq] at h
      exact ⟨c :: rest, List.suffix_refl _, by rw [hm, h]⟩
    | none =>
      rw [hm] at h
      simp only [] at h
      obtain ⟨cs', hsuf, hmp⟩ := ih h
      exact ⟨cs', hsuf.trans (List.suffix_cons c rest), hmp⟩

theorem scrollAux_first_stop (read : Nat → Int) :
    ∀ (fuel i k : Nat), i ≤ k → k - i < fuel →
      (∀ j, i ≤ j → j < k → read (j + 1) ≠ read j) →
      read (k + 1) = read k →
      scrollAux read (read i) i fuel = k + 1 := by
  intro fuel
  induction fuel with
  | zero => intro i k h1 h2 h3 h4; omega
  | succ f ih =>
    intro i k h1 h2 h3 h4
    show (if read (i + 1) = read i then i + 1
      else scrollAux read (read (i + 1)) (i + 1) f) = k + 1
    by_cases he : read (i + 1) = read i
    · have hik : i = k := by
        by_contra hne
        exact h3 i le_rfl (lt_of_le_of_ne h1 hne) he
      rw [if_pos he, hik]
    · have hik : i < k := by
        rcases Nat.eq_or_lt_of_le h1 with heq | hlt
        · subst heq; exact absurd h4 he
        · exact hlt
      rw [if_neg he]
      exact ih (i + 1) k hik (by omega) (fun j hj1 hj2 => h3 j (by omega) hj2) h4

/-!
## Claim theorems
-/

/-- C1, counterexample: two containers with the same extracted name
both appear in the output of `parse_listings` — the claimed "no two
records with an equal place name, later duplicates are dropped"
invariant is false on the code, which has no deduplication at all. -/
theorem C1_counterexample :
    ¬ ((parse_listings [ContainerH.ok cDup, ContainerH.ok cDup] [] none).map
      (fun p => p.place)).Nodup := by decide

/-- C1, amended: `parse_listings` emits one record per non-raising
container whose extracted name is truthy, preserving container order
and keeping later duplicates — there is no deduplication, so equal
names may repeat in the output. -/
theorem C1_amended_theorem (cs : List ContainerH) (notes : List (String × String))
    (city : Option String) :
    (parse_listings cs notes city).map (fun p => p.place) =
      (cs.filterMap emittedName).map some := by
  induction cs with
  | nil => rfl
  | cons head tail ih =>
    cases head with
    | raising m => simpa [parse_listings, emittedName] using ih
    | ok c =>
      rw [parse_listings]
      have hplace : (processContainerBody c notes city).place = containerName c :=
        processContainerBody_place c notes city
      simp only [List.filterMap_cons]
      cases hn : containerName c with
      | none =>
        have : pyTruthy (processContainerBody c notes city).place = false := by
          rw [hplace, hn]; rfl
        simp only [emittedName, hn, this, Bool.false_eq_true, if_false, ih]
      | some t =>
        by_cases ht : t = ""
        · have : pyTruthy (processContainerBody c notes city).place = false := by
            rw [hplace, hn, ht]; rfl
          simp [emittedName, hn, ht, this, ih]
        · simp [emittedName, hn, ht, ih, hplace, pyTruthy]

/-- C2, counterexample: on the metric sequence `[10,20,30,30,30,30]`
the scroll loop stops at iteration 3 (a single unchanged reading)
and reports 3 iterations, not the claimed 6. -/
theorem C2_counterexample :
    scroll_to_load_all exHeights 100 = 3 ∧ scroll_to_load_all exHeights 100 ≠ 6 := by
  decide

/-- C2, amended: the scroll loop declares stability after a *single*
unchanged reading of the loaded-content metric, not three: if the
first `k` readings all change and reading `k+1` equals reading `k`
(with `k` below the scroll cap), the loop stops at iteration `k+1` and
reports `k+1` iterations performed.  For `[10,20,30,30,30,30]` this is
iteration 3, reporting 3. -/
theorem C2_amended_theorem (read : Nat → Int) (k maxScrolls : Nat)
    (hk : k < maxScrolls)
    (hchange : ∀ j, j < k → read (j + 1) ≠ read j)
    (hstop : read (k + 1) = read k) :
    scroll_to_load_all read maxScrolls = k + 1 :=
  scrollAux_first_stop read maxScrolls 0 k (Nat.zero_le k) (by omega)
    (fun j _ hj2 => hchange j hj2) hstop

/-- C2, witness for the amended theorem at the spec's metric sequence:
readings 1 and 2 change, reading 3 repeats reading 2, so the loop
reports 3 iterations. -/
theorem C2_witness : scroll_to_load_all exHeights 100 = 2 + 1 :=
  C2_amended_theorem exHeights 2 100 (by decide) (by decide) (by decide)

/-- C8: an item whose processing raises is caught at the item boundary
and skipped, and parsing continues with the remaining items — the
output over a container list with a raising item inserted anywhere is
the output over the list without it, so no single-item failure aborts
the run and `parse_listings` always returns the same total result. -/
theorem C8_theorem (xs ys : List ContainerH) (m : String)
    (notes : List (String × String)) (city : Option String) :
    parse_listings (xs ++ ContainerH.raising m :: ys) notes city =
      parse_listings (xs ++ ys) notes city := by
  induction xs with
  | nil => rw [List.nil_append, List.nil_append, parse_listings]
  | cons x xs ih =>
    cases x with
    | raising m2 =>
      rw [List.cons_append, List.cons_append, parse_listings, parse_listings, ih]
    | ok c =>
      rw [List.cons_append, List.cons_append, parse_listings, parse_listings, ih]

/-- C10: the second regex branch of `extract_lat_lng`
(`/place/[^/]+/@lat,lng`) is subsumed by the first (`@lat,lng`
anywhere): any match of the second pattern contains a match of the
first, so the second branch is unreachable and the function equals the
single-pattern variant with the falsy-input guard. -/
theorem C10_theorem (url : String) :
    extract_lat_lng url = extract_lat_lng_first url := by
  unfold extract_lat_lng extract_lat_lng_first
  by_cases hu : url = ""
  · rw [if_pos hu, if_pos hu]
  · rw [if_neg hu, if_neg hu]
    cases hc : searchCoords url.toList with
    | some p => rfl
    | none =>
      cases hp : searchPlace url.toList with
      | none => rfl
      | some p =>
        obtain ⟨cs', hsuf, hmp⟩ := searchPlace_gives_match _ _ hp
        obtain ⟨cs'', hsuf2, hmc⟩ := matchPlaceAt_gives_coords _ _ hmp
        exact absurd hc
          (searchCoords_ne_none_of_suffix _ _ _ (hsuf2.trans hsuf) hmc)

/-- C3, counterexample: on a run whose readiness wait is never
satisfied (and on which no place elements ever appear), the claimed
failure outcome does not occur — `success` is `true`, so the claimed
conjunction (succeeded false, records empty, session closed) is false
at this input. -/
theorem C3_counterexample :
    ¬ ((scrape_google_maps_list pageNoReadiness "u" none 100).success = false ∧
      (scrape_google_maps_list pageNoReadiness "u" none 100).data = [] ∧
      (scrape_google_maps_list pageNoReadiness "u" none 100).browserClosed = true) := by
  decide

/-- C3, amended: if the readiness wait is never satisfied, the timeout
is caught, a warning is emitted and the run *proceeds*: when no place
containers are found the outcome has `success = true` with empty
records, and the browser session is still closed on this path. -/
theorem C3_amended_theorem (page : Page) (url : String) (city : Option String)
    (maxScrolls : Nat) (hnav : page.navOk = true)
    (hready : page.readinessOk = false) (hcont : page.containers = []) :
    (scrape_google_maps_list page url city maxScrolls).success = true ∧
    (scrape_google_maps_list page url city maxScrolls).data = [] ∧
    (scrape_google_maps_list page url city maxScrolls).browserClosed = true ∧
    (scrape_google_maps_list page url city maxScrolls).warnings ≠ [] := by
  unfold scrape_google_maps_list
  rw [hnav]
  simp [hready, hcont, parse_listings]

/-- C3, witness: the amended theorem at the concrete never-ready,
empty page. -/
theorem C3_witness :
    (scrape_google_maps_list pageNoReadiness "u" none 100).success = true ∧
    (scrape_google_maps_list pageNoReadiness "u" none 100).data = [] ∧
    (scrape_google_maps_list pageNoReadiness "u" none 100).browserClosed = true ∧
    (scrape_google_maps_list pageNoReadiness "u" none 100).warnings ≠ [] :=
  C3_amended_theorem pageNoReadiness "u" none 100 rfl rfl rfl

/-- C4, counterexample: for the container whose only detail fragment is
`"4.5(123)"`, the resulting record stores only the *raw text*
`"4.5"` in `rating` and nothing else — the record type (taken from the
source's dictionary keys) has no review-count field, the parenthesized
`123` is discarded, and no numeric parsing or thousands-separator
stripping happens, refuting the claim that both fields are assigned as
parsed numbers. -/
theorem C4_counterexample :
    processContainerBody cRate [] none =
      { place := some "P", address := none, category := none,
        rating := some "4.5", url := none, note := none, lat := none,
        lng := none, city := none } := by
  decide

/-- C4, amended: for every fragment matching the
`rating(review_count)` pattern, classification assigns only `rating`,
keeping the matched leading numeral as raw text; the parenthesized
integer is not extracted (the record has no review-count field) and no
number parsing occurs. -/
theorem C4_amended_theorem (pd : PlaceData) (text v : String)
    (h : ratingMatch text = some v) :
    processDetail pd text = { pd with rating := some v } := by
  have hlen : 2 ≤ text.length := by
    have hlist : text.length = text.toList.length := rfl
    have hsplit : text.toList.takeWhile Char.isDigit ++
        text.toList.dropWhile Char.isDigit = text.toList :=
      List.takeWhile_append_dropWhile _ _
    have hds : ¬ (text.toList.takeWhile Char.isDigit).isEmpty = true := by
      intro hemp
      rw [ratingMatch, if_pos hemp] at h
      exact absurd h (by simp)
    have hd1 : 1 ≤ (text.toList.takeWhile Char.isDigit).length := by
      cases he : text.toList.takeWhile Char.isDigit with
      | nil => rw [he] at hds; exact absurd rfl hds
      | cons a l => simp
    have hr1 : 1 ≤ (text.toList.dropWhile Char.isDigit).length := by
      cases he : text.toList.dropWhile Char.isDigit with
      | nil =>
        rw [ratingMatch, if_neg hds] at h
        rw [he] at h
        exact absurd h (by simp)
      | cons a l => simp
    have : (text.toList.takeWhile Char.isDigit).length +
        (text.toList.dropWhile Char.isDigit).length = text.toList.length := by
      rw [← List.length_append, hsplit]
    omega
  have hcond : ¬ (text = "" ∨ text.length < 2) := by
    rintro (hemp | hlt)
    · rw [hemp] at hlen; exact absurd hlen (by decide)
    · omega
  rw [processDetail, if_neg hcond, h]

/-- C4, witness for the amended theorem at the spec's example fragment
`"4.5(123)"`. -/
theorem C4_witness :
    processDetail (initPlace none) "4.5(123)" =
      { initPlace none with rating := some "4.5" } :=
  C4_amended_theorem (initPlace none) "4.5(123)" "4.5" (by decide)

/-- C5: in every record emitted by `parse_listings`, `lat` and `lng`
are either both set or both unset — `extract_lat_lng` returns either a
pair of two values or `(none, none)`, and the record takes both fields
from that single pair (no later step touches them). -/
theorem C5_theorem (cs : List ContainerH) (notes : List (String × String))
    (city : Option String) (p : PlaceData)
    (hp : p ∈ parse_listings cs notes city) :
    p.lat.isSome = p.lng.isSome := by
  induction cs with
  | nil => simp [parse_listings] at hp
  | cons head tail ih =>
    cases head with
    | raising m =>
      rw [parse_listings] at hp
      exact ih hp
    | ok c =>
      rw [parse_listings] at hp
      split at hp
      · rcases List.mem_cons.mp hp with hh | hh
        · rw [hh]; exact processContainerBody_latlng c notes city
        · exact ih hh
      · exact ih hp

/-- C5, witness: the theorem applied to the singleton run over the
container with a coordinate-bearing url. -/
theorem C5_witness :
    (processContainerBody cGeo [] none).lat.isSome =
      (processContainerBody cGeo [] none).lng.isSome :=
  C5_theorem [ContainerH.ok cGeo] [] none (processContainerBody cGeo [] none)
    (by rw [parse_listings]; exact List.mem_of_mem_head? rfl)

/-- C6: every record emitted by `parse_listings` has a non-empty name:
a container whose extracted place name is missing (`none`) or empty is
never appended. -/
theorem C6_theorem (cs : List ContainerH) (notes : List (String × String))
    (city : Option String) (p : PlaceData)
    (hp : p ∈ parse_listings cs notes city) :
    p.place ≠ none ∧ p.place ≠ some "" := by
  induction cs with
  | nil => simp [parse_listings] at hp
  | cons head tail ih =>
    cases head with
    | raising m =>
      rw [parse_listings] at hp
      exact ih hp
    | ok c =>
      rw [parse_listings] at hp
      split at hp
      next htr =>
        rcases List.mem_cons.mp hp with hh | hh
        · rw [hh]; exact pyTruthy_spec _ htr
        · exact ih hh
      next htr => exact ih hp

/-- C6, witness: the theorem applied to the singleton run over `cGeo`,
whose emitted record has the name `"Geo Place"`. -/
theorem C6_witness :
    (processContainerBody cGeo [] none).place ≠ none ∧
      (processContainerBody cGeo [] none).place ≠ some "" :=
  C6_theorem [ContainerH.ok cGeo] [] none (processContainerBody cGeo [] none)
    (by rw [parse_listings]; exact List.mem_of_mem_head? rfl)

/-- C7, counterexample: a container whose only detail fragment is
`"$$"` yields a record with every optional field unset — the record
type (the source's dictionary keys) has no price field and the
fragment is ignored, refuting the claim that classification assigns
`price_range = "$$"`. -/
theorem C7_counterexample :
    processContainerBody cPrice [] none =
      { place := some "P2", address := none, category := none,
        rating := none, url := none, note := none, lat := none,
        lng := none, city := none } := by
  decide

/-- C7, amended: a currency-symbol fragment such as `"$$"` is ignored
by the classification loop: no rule matches it (it fails the rating
pattern, the category keyword test, and the digit/length address
test), there is no price-range rule or field, and the running record
is returned unchanged whatever its prior state. -/
theorem C7_amended_theorem (pd : PlaceData) :
    processDetail pd "$$" = pd := by
  simp [processDetail,
    (by decide : ratingMatch "$$" = none),
    (by decide : hasCategoryKeyword "$$" = false),
    (by decide : ("$$".toList.any Char.isDigit) = false),
    (by decide : ¬("$$" = "" ∨ "$$".length < 2)),
    (by decide : ¬(20 < "$$".length))]

/-- C9: whenever the classification loop assigns an address from a
fragment, the assigned value follows the multi-part rule of the
source: if the fragment contains the separator `" · "`, the value is
the first sub-part that both contains a digit and exceeds 5 characters
(`addrPartOk`), with the whole fragment kept unsplit when no sub-part
qualifies; a fragment without the separator is likewise kept whole.
In every other branch the address field is left unchanged. -/
theorem C9_theorem (pd : PlaceData) (text : String) :
    (processDetail pd text).address = pd.address ∨
      ((containsSub dotSep text.toList = true →
          (processDetail pd text).address =
            some ((((splitDot text.toList).map String.mk).find? addrPartOk).getD
              text)) ∧
        (containsSub dotSep text.toList = false →
          (processDetail pd text).address = some text)) := by
  unfold processDetail
  split
  · exact Or.inl rfl
  · split
    · exact Or.inl rfl
    · split
      · exact Or.inl rfl
      · split
        · refine Or.inr ⟨fun hcon => ?_, fun hcon => ?_⟩
          · show some (pickAddress text) = _
            unfold pickAddress
            rw [if_pos hcon]
            cases hf : ((splitDot text.toList).map String.mk).find? addrPartOk with
            | none => rfl
            | some q => rfl
          · show some (pickAddress text) = some text
            unfold pickAddress
            have hcon2 : containsSub dotSep text.data = false := hcon
            rw [if_neg (by simp [hcon2])]
        · exact Or.inl rfl
